import Mathlib

/-!
Verification development for the KiboStudio observability-and-discovery core
(span collector, SQLite persistence layer, discovery service, feature-flag and
parameter resolver, prompt store, evaluator).

Shallow embedding conventions:
* ISO-8601 timestamp strings are modelled as natural numbers (`Time`); the code
  only compares, minimises and maximises timestamps, and the lexicographic
  order on well-formed ISO strings is order-isomorphic to the numeric order.
* Python floats are modelled as rationals; every numeric value manipulated by
  the verified paths is exactly representable.
* SQLite tables are modelled as Lean lists of rows.  `INSERT OR REPLACE`
  removes every row conflicting with the new row on a PRIMARY KEY or UNIQUE
  constraint and then inserts, firing `ON DELETE CASCADE` foreign-key actions
  for the removed rows (the connection runs `PRAGMA foreign_keys=ON`).
* Fallible operations (SQLite `IntegrityError`, Python `UnboundLocalError`,
  judge/LLM failures) are modelled with `Except String` / `Option`.
-/

abbrev Time := Nat

/-- A JSON-like dynamic value, standing in for Python `Any` payloads
(`attributes`, `input_data`, `output_data`, flag and parameter values). -/
inductive JValue where
| str : String → JValue
| num : ℚ → JValue
| bool : Bool → JValue
| null : JValue
| arr : List JValue → JValue
| obj : List (String × JValue) → JValue

/-- Python truthiness of a `JValue`: empty strings, zero, `False`, `None` and
empty containers are falsy. -/
def jTruthy : JValue → Bool
| .str s => !s.isEmpty
| .num q => q ≠ 0
| .bool b => b
| .null => false
| .arr l => !l.isEmpty
| .obj l => !l.isEmpty

/-- Python truthiness of an `Optional[Dict]` field such as `output_data`. -/
def odTruthy : Option (List (String × JValue)) → Bool
| some l => !l.isEmpty
| none => false

/-- Python `dict.get`: first binding of the key, if any. -/
def jget (d : List (String × JValue)) (k : String) : Option JValue :=
(d.find? (fun kv => kv.1 == k)).map (fun kv => kv.2)

mutual

/-- Rendering of a `JValue` as done by Python `str(...)` in
`Evaluator._coerce_to_str` fallbacks.  The precise text is irrelevant to every
verified property (it only feeds the judge prompt and emptiness checks); the
rendering is structural and nonempty for non-string values. -/
def jRepr : JValue → String
| .str s => s
| .num q => toString q
| .bool b => if b then ("True") else ("False")
| .null => ("None")
| .arr l => ("[") ++ jReprList l ++ ("]")
| .obj l => ("\x7b") ++ jReprObj l ++ ("\x7d")

def jReprList : List JValue → String
| [] => ("")
| [x] => jRepr x
| x :: y :: xs => jRepr x ++ (", ") ++ jReprList (y :: xs)

def jReprObj : List (String × JValue) → String
| [] => ("")
| [kv] => kv.1 ++ (": ") ++ jRepr kv.2
| kv :: kw :: xs => kv.1 ++ (": ") ++ jRepr kv.2 ++ (", ") ++ jReprObj (kw :: xs)

end

/-! ## Domain entities (src/kiboup/studio/entities.py) -/

/-- SpanKind enum from `entities.py`. -/
inductive SpanKind where
| invocation | agent_run | llm_call | tool_call | retrieval | custom
deriving DecidableEq, Repr

/-- SpanKind(value) constructor: `none` models the `ValueError` branch. -/
def parseSpanKind : String → Option SpanKind
| "invocation" => some .invocation
| "agent_run" => some .agent_run
| "llm_call" => some .llm_call
| "tool_call" => some .tool_call
| "retrieval" => some .retrieval
| "custom" => some .custom
| _ => none

/-- AgentStatus enum from `entities.py`. -/
inductive AgentStatus where
| healthy | degraded | busy | unreachable
deriving DecidableEq, Repr

/-- AgentStatus(value) constructor: `none` models the `ValueError` branch. -/
def parseAgentStatus : String → Option AgentStatus
| "healthy" => some .healthy
| "degraded" => some .degraded
| "busy" => some .busy
| "unreachable" => some .unreachable
| _ => none

/-- EvalStatus enum from `entities.py`. -/
inductive EvalStatus where
| pending | running | completed | failed
deriving DecidableEq, Repr

/-- Span dataclass (`entities.py`), with timestamps as `Time` and payloads as
JSON objects. -/
structure Span where
  span_id : String
  trace_id : String
  parent_span_id : Option String := none
  name : String
  kind : SpanKind
  start_time : Time
  end_time : Option Time := none
  duration_ms : Option ℚ := none
  status : String := "ok"
  attributes : List (String × JValue) := []
  events : List JValue := []
  input_data : Option (List (String × JValue)) := none
  output_data : Option (List (String × JValue)) := none
  error : Option String := none
  agent_id : Option String := none

/-- Trace dataclass (`entities.py`). -/
structure Trace where
  trace_id : String
  agent_id : Option String := none
  session_id : Option String := none
  request_id : Option String := none
  start_time : Time
  end_time : Option Time := none
  duration_ms : Option ℚ := none
  status : String := "ok"
  metadata : List (String × JValue) := []
  span_count : Nat := 0

/-- PromptVersion dataclass (`entities.py`).  The `variables` field is named
`varNames` here because `variables` is a reserved word in Lean 4. -/
structure PromptVersion where
  version_id : String
  prompt_id : String
  version : Nat
  content : String
  model_config : List (String × JValue) := []
  varNames : List String := []
  metadata : List (String × JValue) := []
  is_active : Bool := false
  created_at : Time

/-- PromptTemplate dataclass (`entities.py`). -/
structure PromptTemplate where
  prompt_id : String
  name : String
  description : String := ""
  tags : List String := []
  active_version : Option Nat := none
  created_at : Time
  updated_at : Time

/-- EvalResult dataclass (`entities.py`); `metrics` is the flat numeric map. -/
structure EvalResult where
  eval_id : String
  trace_id : String
  agent_id : Option String := none
  metrics : List (String × ℚ) := []
  status : EvalStatus := .pending
  error : Option String := none
  details : List (String × JValue) := []
  created_at : Time
  completed_at : Option Time := none

/-- AgentRegistration dataclass (`entities.py`). -/
structure AgentRegistration where
  agent_id : String
  name : String
  protocol : String := "http"
  endpoint : String := ""
  capabilities : List String := []
  version : String := "0.0.0"
  metadata : List (String × JValue) := []
  status : AgentStatus := .healthy
  registered_at : Time
  last_heartbeat : Option Time := none
  heartbeat_interval_s : Int := 15
  uptime_seconds : ℚ := 0
  active_tasks : Int := 0
  error_count_last_5m : Int := 0
  memory_mb : ℚ := 0

/-- FeatureFlag dataclass (`entities.py`); `value` is `Optional[Any]`. -/
structure FeatureFlag where
  flag_id : String
  agent_id : String := "_global"
  name : String
  enabled : Bool := false
  value : Option JValue := none
  description : String := ""
  updated_at : Time

/-- Parameter dataclass (`entities.py`). -/
structure Parameter where
  param_id : String
  agent_id : String := "_global"
  name : String
  value : Option JValue := none
  description : String := ""
  updated_at : Time

/-! ## Persistence layer state (src/kiboup/studio/db.py)

The SQLite database of `SQLiteStore`.  Each list models one table; row-set
semantics is what matters, and the `ORDER BY` clauses of the read queries are
not modelled because no verified property depends on row ordering (the keyed
lookups are made unambiguous by the PRIMARY KEY / UNIQUE constraints instead,
stated as explicit hypotheses where needed). -/
structure Store where
  traces : List Trace := []
  spans : List Span := []
  prompts : List PromptTemplate := []
  promptVersions : List PromptVersion := []
  evals : List EvalResult := []
  agents : List AgentRegistration := []
  flags : List FeatureFlag := []
  params : List Parameter := []

/-- SQLiteStore.get_trace: row of `traces` keyed by the PRIMARY KEY. -/
def getTrace (st : Store) (tid : String) : Option Trace :=
st.traces.find? (fun t => t.trace_id == tid)

/-- SQLiteStore.save_trace: `INSERT OR REPLACE INTO traces`.  When a row with
the same `trace_id` already exists, REPLACE deletes it first, and with
`PRAGMA foreign_keys=ON` that delete fires `ON DELETE CASCADE` on the child
tables `spans` and `evaluations` (observed behaviour of SQLite). -/
def saveTrace (st : Store) (t : Trace) : Store :=
let traces2 := st.traces.filter (fun r => !(r.trace_id == t.trace_id)) ++ [t]
if st.traces.any (fun r => r.trace_id == t.trace_id) then
  { st with
    traces := traces2
    spans := st.spans.filter (fun s => !(s.trace_id == t.trace_id))
    evals := st.evals.filter (fun e => !(e.trace_id == t.trace_id)) }
else { st with traces := traces2 }

/-- SQLiteStore.save_span: `INSERT OR REPLACE INTO spans` (PRIMARY KEY
`span_id`, FOREIGN KEY `trace_id` → `traces`) followed by
`UPDATE traces SET span_count = (SELECT COUNT(*) FROM spans WHERE trace_id=?)
WHERE trace_id=?`.  `none` models the `IntegrityError` raised when the
referenced trace row does not exist. -/
def saveSpan (st : Store) (sp : Span) : Option Store :=
if st.traces.any (fun t => t.trace_id == sp.trace_id) then
  let spans2 := st.spans.filter (fun s => !(s.span_id == sp.span_id)) ++ [sp]
  let cnt := (spans2.filter (fun s => s.trace_id == sp.trace_id)).length
  some { st with
    spans := spans2
    traces := st.traces.map
      (fun t => if t.trace_id == sp.trace_id then { t with span_count := cnt } else t) }
else none

/-- SQLiteStore.list_spans_by_trace (the `ORDER BY start_time` presentation
order is not modelled; no verified property depends on it). -/
def listSpansByTrace (st : Store) (tid : String) : List Span :=
st.spans.filter (fun s => s.trace_id == tid)

/-- SQLiteStore.save_eval: `INSERT OR REPLACE INTO evaluations` (PRIMARY KEY
`eval_id`, FOREIGN KEY `trace_id` → `traces`).  The `.error` case models the
`sqlite3.IntegrityError` ("FOREIGN KEY constraint failed") raised when the
referenced trace row does not exist. -/
def saveEval (st : Store) (r : EvalResult) : Except String Store :=
if st.traces.any (fun t => t.trace_id == r.trace_id) then
  .ok { st with evals := st.evals.filter (fun e => !(e.eval_id == r.eval_id)) ++ [r] }
else .error ("FOREIGN KEY constraint failed")

/-- SQLiteStore.get_agent. -/
def getAgent (st : Store) (aid : String) : Option AgentRegistration :=
st.agents.find? (fun a => a.agent_id == aid)

/-- SQLiteStore.save_agent: `INSERT OR REPLACE INTO agents` (PRIMARY KEY
`agent_id`; the table has no child tables, so no cascade applies). -/
def saveAgent (st : Store) (a : AgentRegistration) : Store :=
{ st with agents := st.agents.filter (fun r => !(r.agent_id == a.agent_id)) ++ [a] }

/-- SQLiteStore.get_prompt. -/
def getPrompt (st : Store) (pid : String) : Option PromptTemplate :=
st.prompts.find? (fun p => p.prompt_id == pid)

/-- SQLiteStore.save_prompt: `INSERT OR REPLACE INTO prompts` (PRIMARY KEY
`prompt_id`, UNIQUE `name`).  REPLACE deletes every conflicting row, and with
`PRAGMA foreign_keys=ON` those deletes fire `ON DELETE CASCADE` on the child
table `prompt_versions` — including when the deleted row carries the same
`prompt_id` that is immediately re-inserted (observed behaviour of SQLite). -/
def savePrompt (st : Store) (p : PromptTemplate) : Store :=
let gone := fun (r : PromptTemplate) => r.prompt_id == p.prompt_id || r.name == p.name
let removedIds := (st.prompts.filter gone).map (fun r => r.prompt_id)
{ st with
  prompts := st.prompts.filter (fun r => !(gone r)) ++ [p]
  promptVersions := st.promptVersions.filter (fun v => !(removedIds.contains v.prompt_id)) }

/-- SQLiteStore.save_prompt_version: `INSERT OR REPLACE INTO prompt_versions`
(PRIMARY KEY `version_id`, UNIQUE `(prompt_id, version)`; the table has no
child tables).  The FOREIGN KEY `prompt_id` → `prompts` check is omitted: at
every modelled call site the parent prompt row is present. -/
def savePromptVersion (st : Store) (v : PromptVersion) : Store :=
let keep := fun (r : PromptVersion) =>
  !(r.version_id == v.version_id || (r.prompt_id == v.prompt_id && r.version == v.version))
{ st with promptVersions := st.promptVersions.filter keep ++ [v] }

/-- SQLiteStore.list_prompt_versions (the `ORDER BY version DESC` presentation
order is not modelled; the UNIQUE `(prompt_id, version)` constraint makes the
keyed searches below unambiguous). -/
def listPromptVersions (st : Store) (pid : String) : List PromptVersion :=
st.promptVersions.filter (fun v => v.prompt_id == pid)

/-- SQLiteStore.get_flags: rows of `feature_flags` with the given agent scope. -/
def getFlagsFor (st : Store) (aid : String) : List FeatureFlag :=
st.flags.filter (fun f => f.agent_id == aid)

/-- SQLiteStore.save_flag: `INSERT OR REPLACE INTO feature_flags` (PRIMARY KEY
`flag_id`, UNIQUE `(agent_id, name)`; no child tables). -/
def saveFlag (st : Store) (g : FeatureFlag) : Store :=
let keep := fun (f : FeatureFlag) =>
  !(f.flag_id == g.flag_id || (f.agent_id == g.agent_id && f.name == g.name))
{ st with flags := st.flags.filter keep ++ [g] }

/-- SQLiteStore.get_params: rows of `parameters` with the given agent scope. -/
def getParamsFor (st : Store) (aid : String) : List Parameter :=
st.params.filter (fun p => p.agent_id == aid)

/-- SQLiteStore.save_param: `INSERT OR REPLACE INTO parameters` (PRIMARY KEY
`param_id`, UNIQUE `(agent_id, name)`; no child tables). -/
def saveParam (st : Store) (q : Parameter) : Store :=
let keep := fun (p : Parameter) =>
  !(p.param_id == q.param_id || (p.agent_id == q.agent_id && p.name == q.name))
{ st with params := st.params.filter keep ++ [q] }

/-! ## Feature flags and parameters (src/kiboup/studio/feature_flags.py) -/

/-- FeatureFlagService._find_flag: scan the agent-scoped rows for the name. -/
def findFlag (st : Store) (aid nm : String) : Option FeatureFlag :=
(getFlagsFor st aid).find? (fun f => f.name == nm)

/-- FeatureFlagService._find_param. -/
def findParam (st : Store) (aid nm : String) : Option Parameter :=
(getParamsFor st aid).find? (fun p => p.name == nm)

/-- FeatureFlagService.set_flag.  `newId` stands for the fresh `_new_id()`
used when no flag with this `(agent_id, name)` exists yet; `now` stands for
`_utc_now()`.  An empty `description` is falsy in Python, so the stored
description is only overwritten when `description` is nonempty. -/
def setFlag (st : Store) (now : Time) (newId : String) (aid nm : String)
    (enabled : Bool) (value : Option JValue) (description : String) :
    Store × FeatureFlag :=
match findFlag st aid nm with
| some ex =>
  let ex := { ex with
    enabled := enabled
    value := value
    description := if description ≠ ("") then description else ex.description
    updated_at := now }
  (saveFlag st ex, ex)
| none =>
  let g : FeatureFlag :=
    { flag_id := newId, agent_id := aid, name := nm, enabled := enabled,
      value := value, description := description, updated_at := now }
  (saveFlag st g, g)

/-- FeatureFlagService.set_param (same shape as `setFlag`). -/
def setParam (st : Store) (now : Time) (newId : String) (aid nm : String)
    (value : Option JValue) (description : String) : Store × Parameter :=
match findParam st aid nm with
| some ex =>
  let ex := { ex with
    value := value
    description := if description ≠ ("") then description else ex.description
    updated_at := now }
  (saveParam st ex, ex)
| none =>
  let q : Parameter :=
    { param_id := newId, agent_id := aid, name := nm, value := value,
      description := description, updated_at := now }
  (saveParam st q, q)

/-- FeatureFlagService.is_enabled: agent-scoped flag first, then the
`"_global"` scope, then the supplied default. -/
def isEnabled (st : Store) (aid flagName : String) (dflt : Bool) : Bool :=
match (getFlagsFor st aid).find? (fun f => f.name == flagName) with
| some f => f.enabled
| none =>
  match (getFlagsFor st ("_global")).find? (fun f => f.name == flagName) with
  | some f => f.enabled
  | none => dflt

/-- FeatureFlagService.get_param_value: agent-scoped parameter first, then the
`"_global"` scope, then the supplied default (which, like the parameter value
itself, is an `Optional[Any]`). -/
def getParamValue (st : Store) (aid paramName : String) (dflt : Option JValue) :
    Option JValue :=
match (getParamsFor st aid).find? (fun p => p.name == paramName) with
| some p => p.value
| none =>
  match (getParamsFor st ("_global")).find? (fun p => p.name == paramName) with
  | some p => p.value
  | none => dflt

/-! ## Discovery service (src/kiboup/studio/discovery.py) -/

/-- Heartbeat payload dict: absent keys are `none`. -/
structure HeartbeatData where
  agent_id : Option String := none
  status : Option String := none
  uptime_seconds : Option ℚ := none
  active_tasks : Option Int := none
  error_count_last_5m : Option Int := none
  memory_mb : Option ℚ := none

/-- DiscoveryService.heartbeat: `errorThreshold` is the
`_error_threshold` (default 5), `now` stands for `_utc_now()`.  Returns the
updated store plus the agent echoed to the caller, or `none` ("not
registered") with the store untouched. -/
def heartbeat (errorThreshold : Int) (now : Time) (st : Store)
    (data : HeartbeatData) : Store × Option AgentRegistration :=
let aid := data.agent_id.getD ("")
match getAgent st aid with
| none => (st, none)
| some agent =>
  let agent := { agent with
    last_heartbeat := some now
    uptime_seconds := data.uptime_seconds.getD agent.uptime_seconds
    active_tasks := data.active_tasks.getD agent.active_tasks
    error_count_last_5m := data.error_count_last_5m.getD agent.error_count_last_5m
    memory_mb := data.memory_mb.getD agent.memory_mb }
  let reported := data.status.getD ("healthy")
  let newStatus :=
    if reported == ("busy") then AgentStatus.busy
    else if agent.error_count_last_5m ≥ errorThreshold then AgentStatus.degraded
    else (parseAgentStatus reported).getD AgentStatus.healthy
  let agent := { agent with status := newStatus }
  (saveAgent st agent, some agent)

/-- Body of the per-agent check in DiscoveryService._check_agent_health:
skip agents already `unreachable` and agents with no `last_heartbeat`
(timestamps are numeric in the model, so the `datetime.fromisoformat`
failure branch cannot arise: `register` and `heartbeat` only ever store
well-formed `_utc_now()` strings); otherwise mark the agent `unreachable`
when `elapsed > heartbeat_interval_s * 3`. -/
def stepAgent (now : Time) (a : AgentRegistration) : AgentRegistration :=
if a.status == AgentStatus.unreachable then a
else match a.last_heartbeat with
  | none => a
  | some h =>
    if (now : Int) - (h : Int) > a.heartbeat_interval_s * 3 then
      { a with status := AgentStatus.unreachable }
    else a

/-- DiscoveryService._check_agent_health: the loop iterates over a snapshot of
the `agents` table and upserts each stale row through `save_agent`, keyed by
the PRIMARY KEY `agent_id`; since each iteration touches exactly the row it
read, one sweep acts row-wise and is embedded as a pointwise map over the
table. -/
def checkAgentHealth (now : Time) (st : Store) : Store :=
{ st with agents := st.agents.map (stepAgent now) }

/-! ## Prompt store (src/kiboup/studio/prompts.py) -/

/-- PromptStore.create_prompt: `pid` and `vid` stand for the two fresh
`_new_id()` values, `now` for `_utc_now()`. -/
def createPrompt (st : Store) (now : Time) (pid vid : String) (name : String)
    (description : String := "") (tags : List String := [])
    (content : String := "") (model_config : List (String × JValue) := [])
    (varNames : List String := []) : Store × PromptTemplate :=
let prompt : PromptTemplate :=
  { prompt_id := pid, name := name, description := description, tags := tags,
    active_version := some 1, created_at := now, updated_at := now }
let st := savePrompt st prompt
let version : PromptVersion :=
  { version_id := vid, prompt_id := pid, version := 1, content := content,
    model_config := model_config, varNames := varNames, is_active := true,
    created_at := now }
(savePromptVersion st version, prompt)

/-- PromptStore._deactivate_all: every active version of the prompt is saved
back with `is_active = False`; `save_prompt_version` upserts by the PRIMARY
KEY `version_id`, so the loop is embedded as a pointwise map over the table. -/
def deactivateAll (st : Store) (pid : String) : Store :=
let deact := fun (v : PromptVersion) =>
  if v.prompt_id == pid && v.is_active then { v with is_active := false } else v
{ st with promptVersions := st.promptVersions.map deact }

/-- PromptStore.create_version: `vid` stands for the fresh `_new_id()`. -/
def createVersion (st : Store) (now : Time) (vid : String) (pid : String)
    (content : String) (model_config : List (String × JValue) := [])
    (varNames : List String := []) (metadata : List (String × JValue) := [])
    (activate : Bool := false) : Store × Option PromptVersion :=
match getPrompt st pid with
| none => (st, none)
| some prompt =>
  let versions := listPromptVersions st pid
  let nextVersion := (versions.map (fun v => v.version)).foldr max 0 + 1
  let version : PromptVersion :=
    { version_id := vid, prompt_id := pid, version := nextVersion,
      content := content, model_config := model_config, varNames := varNames,
      metadata := metadata, is_active := activate, created_at := now }
  if activate then
    let st := deactivateAll st pid
    let version := { version with is_active := true }
    let prompt := { prompt with active_version := some nextVersion, updated_at := now }
    let st := savePrompt st prompt
    (savePromptVersion st version, some version)
  else
    (savePromptVersion st version, some version)

/-- PromptStore.activate_version. -/
def activateVersion (st : Store) (now : Time) (pid : String)
    (versionNumber : Nat) : Store × Bool :=
let versions := listPromptVersions st pid
match versions.find? (fun v => v.version == versionNumber) with
| none => (st, false)
| some target =>
  let st := deactivateAll st pid
  let st := savePromptVersion st { target with is_active := true }
  match getPrompt st pid with
  | some prompt =>
    let prompt := { prompt with active_version := some versionNumber, updated_at := now }
    (savePrompt st prompt, true)
  | none => (st, true)

/-! ## Span collector (src/kiboup/studio/collector.py) -/

/-- One element of the `spans` list in an ingest payload; absent dict keys are
`none`.  For the string-timestamp fields a Python empty string (falsy, hence
skipped by the `if s.get(...)` filters) is likewise modelled as `none`. -/
structure RawSpan where
  span_id : Option String := none
  parent_span_id : Option String := none
  name : Option String := none
  kind : Option String := none
  start_time : Option Time := none
  end_time : Option Time := none
  duration_ms : Option ℚ := none
  status : Option String := none
  attributes : List (String × JValue) := []
  events : List JValue := []
  input_data : Option (List (String × JValue)) := none
  output_data : Option (List (String × JValue)) := none
  error : Option String := none

/-- Payload of `SpanCollector.ingest_spans`. -/
structure IngestPayload where
  trace_id : Option String := none
  agent_id : Option String := none
  session_id : Option String := none
  request_id : Option String := none
  spans : List RawSpan := []

/-- Return dict of `SpanCollector.ingest_spans`; the validation-failure dict
carries only `error` and `accepted`. -/
structure IngestResult where
  trace_id : Option String := none
  accepted : Nat
  total : Option Nat := none
  error : Option String := none

/-- Span parsed from one raw payload entry (the body of the ingest loop):
unrecognised `kind` strings degrade to `custom`. -/
def parseRawSpan (now : Time) (traceId : String) (agentId : Option String)
    (raw : RawSpan) : Span :=
{ span_id := raw.span_id.getD ("")
  trace_id := traceId
  parent_span_id := raw.parent_span_id
  name := raw.name.getD ("unknown")
  kind := (parseSpanKind (raw.kind.getD ("custom"))).getD SpanKind.custom
  start_time := raw.start_time.getD now
  end_time := raw.end_time
  duration_ms := raw.duration_ms
  status := raw.status.getD ("ok")
  attributes := raw.attributes
  events := raw.events
  input_data := raw.input_data
  output_data := raw.output_data
  error := raw.error
  agent_id := agentId }

/-- SpanCollector.ingest_spans.  `now` stands for `_utc_now()`.  The Python
local `end_times` is assigned only inside the `if not existing_trace:` branch,
so it is carried as an `Option`; reading it while unassigned is the
`UnboundLocalError` the interpreter raises at `if updated and end_times:`
(modelled as `.error`).  A span whose `save_span` raises is skipped and the
loop continues (partial-failure semantics). -/
def ingestSpans (st : Store) (now : Time) (p : IngestPayload) :
    Except String (Store × IngestResult) :=
let traceId := p.trace_id.getD ("")
let rawSpans := p.spans
if traceId == ("") || rawSpans.isEmpty then
  .ok (st, { accepted := 0, error := some ("trace_id and spans are required") })
else
  let existingTrace := getTrace st traceId
  let stAndEnds : Store × Option (List Time) :=
    match existingTrace with
    | none =>
      let startTimes := rawSpans.filterMap (fun (s : RawSpan) => s.start_time)
      let endTimes := rawSpans.filterMap (fun (s : RawSpan) => s.end_time)
      let durations := rawSpans.filterMap
        (fun (s : RawSpan) =>
          match s.duration_ms with
          | some d => if d ≠ 0 then some d else none
          | none => none)
      let trace : Trace :=
        { trace_id := traceId
          agent_id := p.agent_id
          session_id := p.session_id
          request_id := p.request_id
          start_time := startTimes.min?.getD now
          end_time := endTimes.max?
          duration_ms := durations.max?
          status := "ok" }
      (saveTrace st trace, some endTimes)
    | some _ => (st, none)
  let st1 := stAndEnds.1
  let endTimesLocal := stAndEnds.2
  let step := fun (acc : Store × Nat) (raw : RawSpan) =>
    match saveSpan acc.1 (parseRawSpan now traceId p.agent_id raw) with
    | some st2 => (st2, acc.2 + 1)
    | none => acc
  let loopOut := rawSpans.foldl step (st1, 0)
  let st2 := loopOut.1
  let accepted := loopOut.2
  let result : IngestResult :=
    { trace_id := some traceId, accepted := accepted, total := some rawSpans.length }
  if existingTrace.isSome then
    match getTrace st2 traceId with
    | none => .ok (st2, result)
    | some updated =>
      match endTimesLocal with
      | none => .error ("UnboundLocalError: end_times")
      | some endTimes =>
        if endTimes.isEmpty then .ok (st2, result)
        else
          let latestEnd := endTimes.max?.getD 0
          let advance :=
            match updated.end_time with
            | none => true
            | some t => latestEnd > t
          if advance then
            .ok (saveTrace st2 { updated with end_time := some latestEnd }, result)
          else .ok (st2, result)
  else .ok (st2, result)

/-! ## Evaluator (src/kiboup/studio/evaluator.py) -/

/-- Flat numeric score dictionary (`Dict[str, float]`). -/
abbrev ScoreMap := List (String × ℚ)

/-- Python dict assignment `m[k] = v`: overwrite in place or append. -/
def dinsert (m : ScoreMap) (k : String) (v : ℚ) : ScoreMap :=
if m.any (fun kv => kv.1 == k) then m.map (fun kv => if kv.1 == k then (k, v) else kv)
else m ++ [(k, v)]

/-- Python dict lookup `m.get(k)` on a score map. -/
def slookup (m : ScoreMap) (k : String) : Option ℚ :=
(m.find? (fun kv => kv.1 == k)).map (fun kv => kv.2)

/-- Python `m.update(l)`: assign every binding of `l` into `m`. -/
def dictUpdate (m l : ScoreMap) : ScoreMap :=
l.foldl (fun acc kv => dinsert acc kv.1 kv.2) m

/-- Python `round(q, n)` on the rational model.  Python rounds
half-to-even on the underlying binary float; the two agree on every value
arising in the verified paths (none of which sits at a decimal midpoint of
its rounding step except 0.5 itself, which is exactly representable and
returned unchanged by both). -/
def pyRound (n : Nat) (q : ℚ) : ℚ :=
(Int.floor (q * (10 : ℚ) ^ n + 1 / 2) : ℚ) / (10 : ℚ) ^ n

/-- Evaluator._coerce_to_str.  Python may return the raw (non-string)
`content` payload here; the model renders it with `jRepr`, which only affects
the judge prompt text and emptiness gating, not any verified property. -/
def coerceToStr (v : JValue) : String :=
match v with
| .str s => s
| .arr (x :: xs) =>
  let last := (x :: xs).getLast (by simp)
  match last with
  | .obj o =>
    (match jget o ("content") with
     | some (.str s) => s
     | some c => jRepr c
     | none => jRepr last)
  | _ => jRepr last
| .obj o =>
  (match jget o ("content") with
   | some (.str s) => s
   | some c => jRepr c
   | none => jRepr v)
| _ => jRepr v

/-- Evaluator._extract_text over a dict payload: first candidate key bound to
a truthy value wins. -/
def extractText (data : List (String × JValue)) : List String → String
| [] => ("")
| k :: ks =>
  match jget data k with
  | some v => if jTruthy v then coerceToStr v else extractText data ks
  | none => extractText data ks

/-- Evaluator._extract_qa: scan the spans; on each invocation span with truthy
input (resp. output) payload, a nonempty extracted text overwrites the
question (resp. answer). -/
def extractQA (spans : List Span) : String × String :=
spans.foldl
  (fun qa span =>
    let qa1 :=
      if span.kind == SpanKind.invocation && odTruthy span.input_data then
        let q := extractText (span.input_data.getD [])
          [("question"), ("prompt"), ("query"), ("message"), ("input")]
        if q ≠ ("") then (q, qa.2) else qa
      else qa
    if span.kind == SpanKind.invocation && odTruthy span.output_data then
      let a := extractText (span.output_data.getD [])
        [("response"), ("answer"), ("output"), ("content")]
      if a ≠ ("") then (qa1.1, a) else qa1
    else qa1)
  (("") , (""))

/-- Evaluator._eval_basic: deterministic heuristic scoring. -/
def evalBasic (spans : List Span) (requestedMetrics : List String) : ScoreMap :=
let errorSpans := spans.filter (fun s => s.status == ("error"))
let hasOutput := spans.any (fun s => odTruthy s.output_data)
let scores : ScoreMap := []
let scores :=
  if requestedMetrics.contains ("answer_relevancy") then
    let score : ℚ := if hasOutput then 1 else 0
    let score :=
      if !errorSpans.isEmpty then
        score * max 0 (1 - (errorSpans.length : ℚ) / ((max spans.length 1 : ℕ) : ℚ))
      else score
    dinsert scores ("answer_relevancy") (pyRound 4 score)
  else scores
let scores :=
  if requestedMetrics.contains ("coherence") then
    dinsert scores ("coherence") (if hasOutput then 1 else 0)
  else scores
let scores :=
  if requestedMetrics.contains ("completeness") then
    dinsert scores ("completeness") (if hasOutput then 1 else 0)
  else scores
let scores :=
  if requestedMetrics.contains ("harmfulness") then
    dinsert scores ("harmfulness") 0
  else scores
dinsert scores ("eval_method") 0

/-- Evaluator._compute_stats: span statistics merged into every result. -/
def computeStats (spans : List Span) : ScoreMap :=
let llmSpans := spans.filter (fun s => s.kind == SpanKind.llm_call)
let toolSpans := spans.filter (fun s => s.kind == SpanKind.tool_call)
let errorSpans := spans.filter (fun s => s.status == ("error"))
let totalDuration := (spans.map (fun s => s.duration_ms.getD 0)).sum
let llmDuration := (llmSpans.map (fun s => s.duration_ms.getD 0)).sum
let stats : ScoreMap :=
  [ (("total_spans"), (spans.length : ℚ)),
    (("llm_calls"), (llmSpans.length : ℚ)),
    (("tool_calls"), (toolSpans.length : ℚ)),
    (("error_count"), (errorSpans.length : ℚ)),
    (("total_duration_ms"), pyRound 2 totalDuration),
    (("llm_duration_ms"), pyRound 2 llmDuration) ]
if totalDuration > 0 then
  dinsert stats ("llm_time_ratio") (pyRound 4 (llmDuration / totalDuration))
else stats

/-- An external judge call: given the (truncated) question and answer it
either returns the parsed LLM score dict or fails (network error, missing
`openai` import, malformed JSON, ...). -/
abbrev Judge := String → String → Except String ScoreMap

/-- Evaluator._eval_with_llm: truncate the texts, obtain the judge scores,
keep requested metrics only, clamp to [0,1], round to 4 decimals, and tag
`eval_method = 1.0`. -/
def evalWithLlm (j : Judge) (question answer : String)
    (requestedMetrics : List String) : Except String ScoreMap :=
match j (question.take 2000) (answer.take 4000) with
| .error e => .error e
| .ok llmScores =>
  let scores := requestedMetrics.foldl
    (fun acc metric =>
      match slookup llmScores metric with
      | some val => dinsert acc metric (pyRound 4 (max 0 (min 1 val)))
      | none => acc)
    []
  .ok (dinsert scores ("eval_method") 1)

/-- Default metric list `[m.value for m in EvalMetric]`. -/
def defaultMetrics : List String :=
[("answer_relevancy"), ("coherence"), ("completeness"), ("harmfulness")]

/-- Python `metrics or [...]`: `None` and the empty list are falsy. -/
def resolveMetrics : Option (List String) → List String
| none => defaultMetrics
| some [] => defaultMetrics
| some (m :: ms) => m :: ms

/-- Evaluator.run_evaluation.  `judge` is `some _` exactly when
`OPENAI_API_KEY` is configured (`_has_openai`); `evalId` stands for the fresh
`_new_id()` and `now` for `_utc_now()`.  The `try` block around extraction
and scoring is the `match` on `scoresE`; exceptions escaping `save_eval`
(SQLite IntegrityError) are outside it and surface as `.error`. -/
def runEvaluation (judge : Option Judge) (evalId : String) (now : Time)
    (st : Store) (traceId : String) (metricsArg : Option (List String)) :
    Except String (Store × EvalResult) :=
let result : EvalResult :=
  { eval_id := evalId, trace_id := traceId, status := .running, created_at := now }
match getTrace st traceId with
| none =>
  let result := { result with
    status := .failed
    error := some (("Trace ") ++ traceId ++ (" not found"))
    completed_at := some now }
  (saveEval st result).map (fun st2 => (st2, result))
| some trace =>
  let result := { result with agent_id := trace.agent_id }
  match saveEval st result with
  | .error e => .error e
  | .ok st1 =>
    let spans := listSpansByTrace st1 traceId
    let requestedMetrics := resolveMetrics metricsArg
    let qa := extractQA spans
    let scoresE : Except String ScoreMap :=
      match judge with
      | some j =>
        if qa.1 ≠ ("") ∧ qa.2 ≠ ("") then evalWithLlm j qa.1 qa.2 requestedMetrics
        else .ok (evalBasic spans requestedMetrics)
      | none => .ok (evalBasic spans requestedMetrics)
    let result :=
      match scoresE with
      | .ok scores =>
        let scores := dictUpdate scores (computeStats spans)
        { result with metrics := scores, status := .completed, completed_at := some now }
      | .error e =>
        { result with status := .failed, error := some e, completed_at := some now }
    (saveEval st1 result).map (fun st2 => (st2, result))

/-! ## Claims -/

/-- C9: for every ingest payload in which `trace_id` is empty (or absent) or
the span list is empty, `ingest_spans` returns `accepted = 0` with a
descriptive error and the store is completely unchanged (no trace row and no
span row is created or modified). -/
theorem c9_ingest_validation (st : Store) (now : Time) (p : IngestPayload)
    (h : p.trace_id.getD ("") = ("") ∨ p.spans = []) :
    ingestSpans st now p =
      .ok (st, { accepted := 0, error := some ("trace_id and spans are required") }) := by
  rcases h with h | h <;> simp [ingestSpans, h]

/-- Witness for C9 at a payload with spans but no `trace_id`: the store (here
one containing a trace row) is returned unchanged with `accepted = 0`. -/
theorem c9_ingest_validation_witness :
    ingestSpans { traces := [{ trace_id := "t1", start_time := 0 }] } 3
        { spans := [{ span_id := some ("s1") }] } =
      .ok ({ traces := [{ trace_id := "t1", start_time := 0 }] },
           { accepted := 0, error := some ("trace_id and spans are required") }) :=
  c9_ingest_validation _ 3 _ (Or.inl rfl)

/-- C1 (failing evaluation): ingesting a batch whose `trace_id` already has a
persisted trace row does not complete: the Python local `end_times` is
assigned only in the trace-synthesis branch, so the post-ingest block
`if updated and end_times:` raises `UnboundLocalError` instead of advancing
the `end_time` of the trace (and the spans accepted earlier in the call remain
persisted, so the exception escapes after partial work). -/
theorem c1_failing_eval :
    (match ingestSpans { traces := [{ trace_id := "t1", start_time := 0 }] } 7
        { trace_id := some ("t1"),
          spans := [{ span_id := some ("s1"), end_time := some 5 }] } with
     | .error e => e == ("UnboundLocalError: end_times")
     | .ok _ => false) = true := by decide

/-- Invariant from the spec: the `span_count` of every trace row equals the
number of persisted spans carrying its `trace_id`. -/
def SpanCountInv (st : Store) : Prop :=
∀ t ∈ st.traces, t.span_count = (st.spans.filter (fun s => s.trace_id == t.trace_id)).length

/-- Every `span_id` occurring in the list is associated with a single
`trace_id` (no save moves a span between traces). -/
def ConsistentSpanIds (l : List Span) : Prop :=
∀ s1 ∈ l, ∀ s2 ∈ l, s1.span_id = s2.span_id → s1.trace_id = s2.trace_id

/-- The PRIMARY KEY constraint of the `spans` table: stored `span_id`s are
pairwise distinct. -/
def SpanKeysNodup (st : Store) : Prop :=
(st.spans.map (fun s => s.span_id)).Nodup

/-- A sequence of `save_span` calls; the first `IntegrityError` aborts it. -/
def saveSpans (st : Store) : List Span → Option Store
| [] => some st
| sp :: rest =>
  match saveSpan st sp with
  | some st2 => saveSpans st2 rest
  | none => none

theorem saveSpan_pres (st : Store) (sp : Span) (st2 : Store)
    (hc : ∀ s ∈ st.spans, s.span_id = sp.span_id → s.trace_id = sp.trace_id)
    (hinv : SpanCountInv st)
    (h : saveSpan st sp = some st2) :
    SpanCountInv st2 ∧ (∀ s ∈ st2.spans, s ∈ st.spans ∨ s = sp) := by
  unfold saveSpan at h
  split at h
  case isFalse => exact absurd h (by simp)
  case isTrue hfk =>
  injection h with h
  subst h
  refine ⟨?_, ?_⟩
  · intro t2 ht2
    simp only [List.mem_map] at ht2
    obtain ⟨t, ht, rfl⟩ := ht2
    by_cases hb : t.trace_id = sp.trace_id
    · simp only [hb, beq_self_eq_true, if_true]
    · have hbne : (t.trace_id == sp.trace_id) = false := by
        simp only [beq_eq_false_iff_ne, ne_eq]; exact hb
      simp only [hbne, Bool.false_eq_true, if_false]
      have hcount := hinv t ht
      have hsp : (sp.trace_id == t.trace_id) = false := by
        simp only [beq_eq_false_iff_ne, ne_eq]
        exact fun hx => hb hx.symm
      rw [hcount, List.filter_append, List.filter_filter]
      simp only [List.filter_cons, hsp, Bool.false_eq_true, if_false, List.filter_nil,
        List.append_nil]
      congr 1
      apply List.filter_congr
      intro s hs
      by_cases hid : s.span_id = sp.span_id
      · have htr : s.trace_id = sp.trace_id := hc s hs hid
        have hstf : (s.trace_id == t.trace_id) = false := by
          simp only [beq_eq_false_iff_ne, ne_eq, htr]
          exact fun hx => hb hx.symm
        rw [hstf]
        simp
      · have hidf : (s.span_id == sp.span_id) = false := by
          simp only [beq_eq_false_iff_ne, ne_eq]; exact hid
        rw [hidf]
        simp
  · intro s hs
    simp only [List.mem_append, List.mem_filter, List.mem_singleton] at hs
    rcases hs with ⟨hs, _⟩ | hs
    · exact Or.inl hs
    · exact Or.inr hs

theorem length_filter_span_id (l : List Span) (x : String)
    (hnd : (l.map (fun s => s.span_id)).Nodup)
    (hx : ∃ s ∈ l, s.span_id = x) :
    (l.filter (fun s => !(s.span_id == x))).length + 1 = l.length := by
  induction l with
  | nil => simp at hx
  | cons a t ih =>
    simp only [List.map_cons, List.nodup_cons] at hnd
    obtain ⟨ha, hndt⟩ := hnd
    by_cases hax : a.span_id = x
    · have hfil : t.filter (fun s => !(s.span_id == x)) = t := by
        apply List.filter_eq_self.mpr
        intro s hs
        simp only [Bool.not_eq_eq_eq_not, Bool.not_true, beq_eq_false_iff_ne, ne_eq]
        intro hsx
        apply ha
        rw [hax, ← hsx]
        exact List.mem_map_of_mem _ hs
      simp [List.filter_cons, hax, hfil]
    · have hx2 : ∃ s ∈ t, s.span_id = x := by
        obtain ⟨s, hs, hsx⟩ := hx
        rcases List.mem_cons.mp hs with rfl | hs2
        · exact absurd hsx hax
        · exact ⟨s, hs2, hsx⟩
      have haxf : (a.span_id == x) = false := by
        simp only [beq_eq_false_iff_ne, ne_eq]; exact hax
      simp only [List.filter_cons, haxf, Bool.not_false, if_true, List.length_cons]
      rw [Nat.succ_add]
      exact congrArg Nat.succ (ih hndt hx2)

theorem saveSpans_inv (sps : List Span) : ∀ st st2 : Store,
    SpanCountInv st → ConsistentSpanIds (st.spans ++ sps) →
    saveSpans st sps = some st2 → SpanCountInv st2 := by
  induction sps with
  | nil =>
    intro st st2 hinv _ hrun
    unfold saveSpans at hrun
    injection hrun with hrun
    exact hrun ▸ hinv
  | cons sp rest ih =>
    intro st st2 hinv hcons hrun
    unfold saveSpans at hrun
    cases hsave : saveSpan st sp with
    | none => rw [hsave] at hrun; exact absurd hrun (by simp)
    | some stm =>
      rw [hsave] at hrun
      have hc1 : ∀ s ∈ st.spans, s.span_id = sp.span_id → s.trace_id = sp.trace_id := by
        intro s hs hid
        exact hcons s (List.mem_append_left _ hs) sp
          (List.mem_append_right _ (List.mem_cons_self _ _)) hid
      obtain ⟨hinv2, hsub⟩ := saveSpan_pres st sp stm hc1 hinv hsave
      refine ih stm st2 hinv2 ?_ hrun
      intro s1 h1 s2 h2 hid
      have lift : ∀ s, s ∈ stm.spans ++ rest → s ∈ st.spans ++ sp :: rest := by
        intro s hs
        rcases List.mem_append.mp hs with hs | hs
        · rcases hsub s hs with hs2 | rfl
          · exact List.mem_append_left _ hs2
          · exact List.mem_append_right _ (List.mem_cons_self _ _)
        · exact List.mem_append_right _ (List.mem_cons_of_mem _ hs)
      exact hcons s1 (lift s1 h1) s2 (lift s2 h2) hid

/-- C2 (amended): after any sequence of `save_span` calls in which every
`span_id` stays bound to a single `trace_id`, the `span_count` of every trace row
equals the number of persisted spans with its `trace_id`; and re-saving a
span whose `span_id` is already stored overwrites the existing row rather
than appending (the spans table does not grow).  The amendment restricts the
original claim to sequences that never move a `span_id` to a different
`trace_id`: `save_span` recomputes `span_count` only for the trace of the
span being written, so moving a span between traces leaves the counter of
the old trace stale (see the counterexample). -/
theorem c2_span_count (st : Store) (sps : List Span) (st2 : Store)
    (hinv : SpanCountInv st)
    (hcons : ConsistentSpanIds (st.spans ++ sps))
    (hrun : saveSpans st sps = some st2) :
    SpanCountInv st2 ∧
      (∀ sp st3, SpanKeysNodup st → (∃ s ∈ st.spans, s.span_id = sp.span_id) →
        saveSpan st sp = some st3 → st3.spans.length = st.spans.length) := by
  refine ⟨saveSpans_inv sps st st2 hinv hcons hrun, ?_⟩
  intro sp st3 hnd hex hsave
  unfold saveSpan at hsave
  split at hsave
  case isFalse => exact absurd hsave (by simp)
  case isTrue =>
    injection hsave with hsave
    subst hsave
    simpa using length_filter_span_id st.spans sp.span_id hnd hex

def c2CounterStart : Store :=
{ traces := [{ trace_id := "t1", start_time := 0 }, { trace_id := "t2", start_time := 0 }] }

def c2CounterSpans : List Span :=
[ { span_id := "s1", trace_id := "t1", name := "n", kind := .custom, start_time := 0 },
  { span_id := "s1", trace_id := "t2", name := "n", kind := .custom, start_time := 0 } ]

/-- C2 (counterexample to the claim as stated): two `save_span` calls that
re-save `span_id = s1` under a different `trace_id` leave trace `t1` with
`span_count = 1` although zero persisted spans carry `trace_id = t1` — the
recount in `save_span` touches only the trace of the span being written, so
the invariant fails for the trace the span was moved away from. -/
theorem c2_counterexample :
    ((saveSpans c2CounterStart c2CounterSpans).map (fun st =>
       ((getTrace st ("t1")).map Trace.span_count,
        (st.spans.filter (fun s => s.trace_id == ("t1"))).length))) = some (some 1, 0) := by
  decide

def c2wSpanOld : Span :=
{ span_id := "s1", trace_id := "t1", name := "first", kind := .custom, start_time := 0 }

def c2wSpanNew : Span :=
{ span_id := "s1", trace_id := "t1", name := "second", kind := .custom, start_time := 1 }

def c2wStart : Store :=
{ traces := [{ trace_id := "t1", start_time := 0, span_count := 1 }], spans := [c2wSpanOld] }

def c2wEnd : Store :=
{ traces := [{ trace_id := "t1", start_time := 0, span_count := 1 }], spans := [c2wSpanNew] }

/-- Witness for C2 (amended) at a concrete store: re-saving span `s1` of trace
`t1` keeps the invariant and does not grow the spans table. -/
theorem c2_span_count_witness :
    SpanCountInv c2wEnd ∧
      (∀ sp st3, SpanKeysNodup c2wStart → (∃ s ∈ c2wStart.spans, s.span_id = sp.span_id) →
        saveSpan c2wStart sp = some st3 → st3.spans.length = c2wStart.spans.length) :=
  c2_span_count c2wStart [c2wSpanNew] c2wEnd
    (by unfold SpanCountInv; decide)
    (by unfold ConsistentSpanIds; decide)
    rfl

/-- C3: one monitor sweep maps every agent row through `stepAgent`; for a
registered agent (which always carries a `last_heartbeat`, since `register`
and `heartbeat` both stamp one) the sweep sets `status = unreachable` exactly
when the agent is not already unreachable and the elapsed time since
`last_heartbeat` exceeds `3 * heartbeat_interval_s`; an agent already
unreachable is never modified (in particular never promoted out of
unreachable), and repeated sweeps are idempotent. -/
theorem c3_monitor_sweep (now : Time) (st : Store) (a : AgentRegistration)
    (ha : a ∈ st.agents) (h : Time) (hh : a.last_heartbeat = some h) :
    ((stepAgent now a).status = AgentStatus.unreachable ↔
      (a.status = AgentStatus.unreachable ∨
        (now : Int) - (h : Int) > a.heartbeat_interval_s * 3)) ∧
    (a.status = AgentStatus.unreachable → stepAgent now a = a) ∧
    (stepAgent now a ≠ a →
      a.status ≠ AgentStatus.unreachable ∧
        (now : Int) - (h : Int) > a.heartbeat_interval_s * 3) ∧
    ((a.status ≠ AgentStatus.unreachable ∧
        (now : Int) - (h : Int) > a.heartbeat_interval_s * 3) →
      stepAgent now a = { a with status := AgentStatus.unreachable }) ∧
    (checkAgentHealth now st).agents = st.agents.map (stepAgent now) ∧
    checkAgentHealth now (checkAgentHealth now st) = checkAgentHealth now st := by
  have hstep : ∀ b : AgentRegistration, stepAgent now (stepAgent now b) = stepAgent now b := by
    intro b
    unfold stepAgent
    by_cases hb : b.status = AgentStatus.unreachable
    · simp [hb]
    · have hbf : (b.status == AgentStatus.unreachable) = false := by
        simp only [beq_eq_false_iff_ne, ne_eq]; exact hb
      simp only [hbf, Bool.false_eq_true, if_false]
      cases hlb : b.last_heartbeat with
      | none => simp [hbf, hlb]
      | some hb2 =>
        by_cases hst : (now : Int) - (hb2 : Int) > b.heartbeat_interval_s * 3
        · simp [hlb, hst]
        · simp [hbf, hlb, hst]
  refine ⟨?_, ?_, ?_, ?_, rfl, ?_⟩
  · unfold stepAgent
    by_cases hb : a.status = AgentStatus.unreachable
    · simp [hb]
    · have hbf : (a.status == AgentStatus.unreachable) = false := by
        simp only [beq_eq_false_iff_ne, ne_eq]; exact hb
      simp only [hbf, Bool.false_eq_true, if_false, hh]
      by_cases hst : (now : Int) - (h : Int) > a.heartbeat_interval_s * 3
      · simp [hst, hb]
      · simp [hst, hb]
  · intro hb
    unfold stepAgent
    simp [hb]
  · intro hne
    unfold stepAgent at hne
    by_cases hb : a.status = AgentStatus.unreachable
    · simp [hb] at hne
    · have hbf : (a.status == AgentStatus.unreachable) = false := by
        simp only [beq_eq_false_iff_ne, ne_eq]; exact hb
      simp only [hbf, Bool.false_eq_true, if_false, hh] at hne
      by_cases hst : (now : Int) - (h : Int) > a.heartbeat_interval_s * 3
      · exact ⟨hb, hst⟩
      · simp [hst] at hne
  · intro hcond
    unfold stepAgent
    have hbf : (a.status == AgentStatus.unreachable) = false := by
      simp only [beq_eq_false_iff_ne, ne_eq]; exact hcond.1
    simp [hbf, hh, hcond.2]
  · unfold checkAgentHealth
    congr 1
    rw [List.map_map]
    exact congrArg (fun f => List.map f st.agents) (funext hstep)

def c3wAgent : AgentRegistration :=
{ agent_id := "a1", name := "agent", registered_at := 0, last_heartbeat := some 0,
  heartbeat_interval_s := 5 }

/-- Witness for C3: an agent registered with `heartbeat_interval_s = 5` whose
last heartbeat is 16 seconds old is marked unreachable by one sweep. -/
theorem c3_monitor_sweep_witness :
    (stepAgent 16 c3wAgent).status = AgentStatus.unreachable :=
  ((c3_monitor_sweep 16 { agents := [c3wAgent] } c3wAgent
      (List.mem_singleton.mpr rfl) 0 rfl).1).mpr (Or.inr (by decide))

/-- C4: a heartbeat for an unregistered `agent_id` returns the not-registered
result and leaves the store untouched; otherwise `last_heartbeat` and the
numeric counters are updated from the payload (keeping prior values for
absent keys), the updated row is persisted, and the resulting status is
resolved in order: payload status `"busy"` wins; else an (updated)
`error_count_last_5m` at or above the error threshold forces `degraded`;
else a recognized payload status is adopted and anything else defaults to
`healthy`. -/
theorem c4_heartbeat (errorThreshold : Int) (now : Time) (st : Store)
    (d : HeartbeatData) :
    (getAgent st (d.agent_id.getD ("")) = none →
      heartbeat errorThreshold now st d = (st, none)) ∧
    (∀ a, getAgent st (d.agent_id.getD ("")) = some a →
      ∃ a2, heartbeat errorThreshold now st d = (saveAgent st a2, some a2) ∧
        a2.last_heartbeat = some now ∧
        a2.uptime_seconds = d.uptime_seconds.getD a.uptime_seconds ∧
        a2.active_tasks = d.active_tasks.getD a.active_tasks ∧
        a2.error_count_last_5m = d.error_count_last_5m.getD a.error_count_last_5m ∧
        a2.memory_mb = d.memory_mb.getD a.memory_mb ∧
        a2.status =
          (if d.status.getD ("healthy") = ("busy") then AgentStatus.busy
           else if d.error_count_last_5m.getD a.error_count_last_5m ≥ errorThreshold then
             AgentStatus.degraded
           else (parseAgentStatus (d.status.getD ("healthy"))).getD AgentStatus.healthy)) := by
  constructor
  · intro h
    unfold heartbeat
    simp only [h]
  · intro a hA
    unfold heartbeat
    simp only [hA]
    refine ⟨_, rfl, rfl, rfl, rfl, rfl, rfl, ?_⟩
    by_cases hb : d.status.getD ("healthy") = ("busy")
    · simp [hb]
    · have hbne : (d.status.getD ("healthy") == ("busy")) = false := by
        simp only [beq_eq_false_iff_ne, ne_eq]; exact hb
      simp [hbne, hb]

def c4wAgent : AgentRegistration :=
{ agent_id := "a1", name := "agent", registered_at := 0, last_heartbeat := some 0 }

/-- Witness for C4: an unknown agent is rejected with the store unchanged, and
a heartbeat reporting `error_count_last_5m = 7` against the default threshold
5 resolves to `degraded`. -/
theorem c4_heartbeat_witness :
    heartbeat 5 10 ({} : Store) { agent_id := some ("ghost") } = ({} , none) ∧
    ∃ a2, heartbeat 5 10 { agents := [c4wAgent] }
        { agent_id := some ("a1"), error_count_last_5m := some 7 } =
          (saveAgent { agents := [c4wAgent] } a2, some a2) ∧
        a2.status = AgentStatus.degraded ∧ a2.last_heartbeat = some 10 := by
  constructor
  · exact (c4_heartbeat 5 10 ({} : Store) { agent_id := some ("ghost") }).1 rfl
  · obtain ⟨a2, heq, hlb, _, _, herr, _, hstat⟩ :=
      (c4_heartbeat 5 10 { agents := [c4wAgent] }
        { agent_id := some ("a1"), error_count_last_5m := some 7 }).2 c4wAgent rfl
    refine ⟨a2, heq, ?_, hlb⟩
    rw [hstat]
    decide

theorem find?_map_replace (m : ScoreMap) (k : String) (v : ℚ)
    (h : m.any (fun kv => kv.1 == k) = true) :
    (m.map (fun kv => if kv.1 == k then (k, v) else kv)).find? (fun kv => kv.1 == k)
      = some (k, v) := by
  induction m with
  | nil => simp at h
  | cons a t ih =>
    by_cases hak : a.1 = k
    · have hc : (a.1 == k) = true := by simp [hak]
      rw [List.map_cons, if_pos hc]
      simp only [List.find?]
      simp only [beq_self_eq_true]
    · have hc : (a.1 == k) = false := by
        simp only [beq_eq_false_iff_ne, ne_eq]; exact hak
      simp only [List.any_cons, hc, Bool.false_or] at h
      rw [List.map_cons, if_neg (by simp [hc])]
      simp only [List.find?]
      simp only [hc]
      exact ih h

theorem find?_map_replace_ne (m : ScoreMap) (k k2 : String) (v : ℚ) (h : ¬ k = k2) :
    (m.map (fun kv => if kv.1 == k2 then (k2, v) else kv)).find? (fun kv => kv.1 == k)
      = m.find? (fun kv => kv.1 == k) := by
  induction m with
  | nil => simp
  | cons a t ih =>
    by_cases hak : a.1 = k2
    · have hc : (a.1 == k2) = true := by simp [hak]
      have hknk : ((k2 : String) == k) = false := by
        simp only [beq_eq_false_iff_ne, ne_eq]; exact fun hx => h hx.symm
      have hank : (a.1 == k) = false := by
        simp only [beq_eq_false_iff_ne, ne_eq, hak]; exact fun hx => h hx.symm
      rw [List.map_cons, if_pos hc]
      simp only [List.find?, hknk, hank]
      exact ih
    · have hc : (a.1 == k2) = false := by
        simp only [beq_eq_false_iff_ne, ne_eq]; exact hak
      rw [List.map_cons, if_neg (by simp [hc])]
      simp only [List.find?]
      cases hank : (a.1 == k) with
      | true => rfl
      | false => exact ih

theorem slookup_dinsert_self (m : ScoreMap) (k : String) (v : ℚ) :
    slookup (dinsert m k v) k = some v := by
  unfold dinsert slookup
  by_cases hany : m.any (fun kv => kv.1 == k) = true
  · rw [if_pos hany, find?_map_replace m k v hany]
    rfl
  · have hnone : m.find? (fun kv => kv.1 == k) = none := by
      rw [List.find?_eq_none]
      intro kv hkv hb
      exact hany (List.any_eq_true.mpr ⟨kv, hkv, hb⟩)
    rw [if_neg hany, List.find?_append, hnone]
    simp

theorem slookup_dinsert_ne (m : ScoreMap) (k k2 : String) (v : ℚ) (h : ¬ k = k2) :
    slookup (dinsert m k2 v) k = slookup m k := by
  unfold dinsert slookup
  by_cases hany : m.any (fun kv => kv.1 == k2) = true
  · rw [if_pos hany, find?_map_replace_ne m k k2 v h]
  · have hknk : ((k2 : String) == k) = false := by
      simp only [beq_eq_false_iff_ne, ne_eq]; exact fun hx => h hx.symm
    rw [if_neg hany, List.find?_append]
    simp [hknk]

theorem slookup_branch_ne (b : Bool) (m : ScoreMap) (k k2 : String) (v : ℚ)
    (h : ¬ k = k2) :
    slookup (if b then dinsert m k2 v else m) k = slookup m k := by
  cases b
  · rfl
  · exact slookup_dinsert_ne m k k2 v h

theorem slookup_dictUpdate_notin (l : ScoreMap) : ∀ (m : ScoreMap) (k : String),
    (∀ kv ∈ l, ¬ kv.1 = k) → slookup (dictUpdate m l) k = slookup m k := by
  induction l with
  | nil => intro m k _; rfl
  | cons a t ih =>
    intro m k h
    rw [show dictUpdate m (a :: t) = dictUpdate (dinsert m a.1 a.2) t from rfl]
    rw [ih (dinsert m a.1 a.2) k (fun kv hkv => h kv (List.mem_cons_of_mem _ hkv))]
    exact slookup_dinsert_ne m k a.1 a.2
      (fun hx => h a (List.mem_cons_self _ _) hx.symm)

theorem mem_dinsert (m : ScoreMap) (k : String) (v : ℚ) (kv : String × ℚ)
    (h : kv ∈ dinsert m k v) : kv ∈ m ∨ kv.1 = k := by
  unfold dinsert at h
  split at h
  · obtain ⟨x, hx, hmap⟩ := List.mem_map.mp h
    by_cases hxk : x.1 = k
    · right
      rw [← hmap]
      simp [hxk]
    · left
      have hxkf : (x.1 == k) = false := by
        simp only [beq_eq_false_iff_ne, ne_eq]; exact hxk
      rw [← hmap, hxkf]
      simpa using hx
  · rcases List.mem_append.mp h with h | h
    · exact Or.inl h
    · right
      simp only [List.mem_singleton] at h
      rw [h]

theorem computeStats_key (spans : List Span) (kv : String × ℚ)
    (h : kv ∈ computeStats spans) :
    kv.1 ∈ [("total_spans"), ("llm_calls"), ("tool_calls"), ("error_count"),
      ("total_duration_ms"), ("llm_duration_ms"), ("llm_time_ratio")] := by
  unfold computeStats at h
  have base : ∀ x : String × ℚ,
      x ∈ [(("total_spans"), ((spans.length : ℚ))),
        (("llm_calls"), (((spans.filter (fun s => s.kind == SpanKind.llm_call)).length : ℚ))),
        (("tool_calls"), (((spans.filter (fun s => s.kind == SpanKind.tool_call)).length : ℚ))),
        (("error_count"), (((spans.filter (fun s => s.status == ("error"))).length : ℚ))),
        (("total_duration_ms"), pyRound 2 ((spans.map (fun s => s.duration_ms.getD 0)).sum)),
        (("llm_duration_ms"), pyRound 2
          (((spans.filter (fun s => s.kind == SpanKind.llm_call)).map
            (fun s => s.duration_ms.getD 0)).sum))] →
      x.1 ∈ [("total_spans"), ("llm_calls"), ("tool_calls"), ("error_count"),
        ("total_duration_ms"), ("llm_duration_ms"), ("llm_time_ratio")] := by
    intro x hx
    simp only [List.mem_cons, List.not_mem_nil, or_false] at hx
    rcases hx with rfl | rfl | rfl | rfl | rfl | rfl <;> simp
  dsimp only at h
  split at h
  · rcases mem_dinsert _ _ _ _ h with h | h
    · exact base kv h
    · rw [h]; simp
  · exact base kv h

theorem slookup_update_stats (m : ScoreMap) (spans : List Span) (k : String)
    (h : ¬ k ∈ [("total_spans"), ("llm_calls"), ("tool_calls"), ("error_count"),
      ("total_duration_ms"), ("llm_duration_ms"), ("llm_time_ratio")]) :
    slookup (dictUpdate m (computeStats spans)) k = slookup m k :=
  slookup_dictUpdate_notin _ m k
    (fun kv hkv heq => h (heq ▸ computeStats_key spans kv hkv))

/-- Whether any span of the list carries a truthy (non-empty) `output_data`
payload (the `has_output` local of `_eval_basic`). -/
def hasOutput (spans : List Span) : Bool :=
spans.any (fun s => odTruthy s.output_data)

/-- The `answer_relevancy` value produced by the heuristic path before
rounding, as forced by the code: the base score (1.0 with output, else 0.0)
is additionally scaled by `max 0 (1 - error_spans / max total_spans 1)`
whenever at least one span has `status = "error"`.  This is the amended form
of the claim, which asserted a plain 1.0/0.0. -/
def heuristicRelevancy (spans : List Span) : ℚ :=
let errorSpans := spans.filter (fun s => s.status == ("error"))
let score : ℚ := if hasOutput spans then 1 else 0
if !errorSpans.isEmpty then
  score * max 0 (1 - (errorSpans.length : ℚ) / ((max spans.length 1 : ℕ) : ℚ))
else score

theorem evalBasic_eval_method (spans : List Span) (req : List String) :
    slookup (evalBasic spans req) ("eval_method") = some 0 := by
  unfold evalBasic
  exact slookup_dinsert_self _ _ _

theorem evalBasic_harmfulness (spans : List Span) (req : List String)
    (h : req.contains ("harmfulness") = true) :
    slookup (evalBasic spans req) ("harmfulness") = some 0 := by
  unfold evalBasic
  rw [slookup_dinsert_ne _ _ _ _ (by decide), if_pos h]
  exact slookup_dinsert_self _ _ _

theorem evalBasic_completeness (spans : List Span) (req : List String)
    (h : req.contains ("completeness") = true) :
    slookup (evalBasic spans req) ("completeness")
      = some (if hasOutput spans then 1 else 0) := by
  unfold evalBasic
  rw [slookup_dinsert_ne _ _ _ _ (by decide),
    slookup_branch_ne _ _ _ _ _ (by decide), if_pos h]
  exact slookup_dinsert_self _ _ _

theorem evalBasic_coherence (spans : List Span) (req : List String)
    (h : req.contains ("coherence") = true) :
    slookup (evalBasic spans req) ("coherence")
      = some (if hasOutput spans then 1 else 0) := by
  unfold evalBasic
  rw [slookup_dinsert_ne _ _ _ _ (by decide),
    slookup_branch_ne _ _ _ _ _ (by decide),
    slookup_branch_ne _ _ _ _ _ (by decide), if_pos h]
  exact slookup_dinsert_self _ _ _

theorem evalBasic_relevancy (spans : List Span) (req : List String)
    (h : req.contains ("answer_relevancy") = true) :
    slookup (evalBasic spans req) ("answer_relevancy")
      = some (pyRound 4 (heuristicRelevancy spans)) := by
  unfold evalBasic
  rw [slookup_dinsert_ne _ _ _ _ (by decide),
    slookup_branch_ne _ _ _ _ _ (by decide),
    slookup_branch_ne _ _ _ _ _ (by decide),
    slookup_branch_ne _ _ _ _ _ (by decide), if_pos h]
  exact slookup_dinsert_self _ _ _

theorem getTrace_any (st : Store) (tid : String) (tr : Trace)
    (h : getTrace st tid = some tr) :
    (st.traces.any (fun t => t.trace_id == tid)) = true := by
  unfold getTrace at h
  have hm : tr ∈ st.traces := List.mem_of_find?_eq_some h
  have hp := List.find?_some h
  exact List.any_eq_true.mpr ⟨tr, hm, hp⟩

/-- C5 (amended): when no judge is configured, `run_evaluation` on an
existing trace completes with heuristic scores: `eval_method = 0.0`;
`harmfulness = 0.0`; `coherence` and `completeness` are 1.0 exactly when some
span has non-empty `output_data` and 0.0 otherwise; and `answer_relevancy` is
that same base score additionally scaled by `max 0 (1 - errors/total)` when
any span has `status = "error"` (rounded to 4 decimals) — the amendment the
counterexample forces on the original claim, which asserted a plain 1.0 for
`answer_relevancy` as well.  Each equation applies when its metric is in the
requested list; the span statistics merged afterwards use disjoint keys and
do not disturb these entries. -/
theorem c5_heuristic_scores (evalId : String) (now : Time) (st : Store) (traceId : String)
    (margs : Option (List String)) (tr : Trace) (htrace : getTrace st traceId = some tr) :
    ∃ st2 r, runEvaluation none evalId now st traceId margs = .ok (st2, r) ∧
      r.status = EvalStatus.completed ∧
      slookup r.metrics ("eval_method") = some 0 ∧
      ((resolveMetrics margs).contains ("harmfulness") = true →
        slookup r.metrics ("harmfulness") = some 0) ∧
      ((resolveMetrics margs).contains ("coherence") = true →
        slookup r.metrics ("coherence")
          = some (if hasOutput (listSpansByTrace st traceId) then 1 else 0)) ∧
      ((resolveMetrics margs).contains ("completeness") = true →
        slookup r.metrics ("completeness")
          = some (if hasOutput (listSpansByTrace st traceId) then 1 else 0)) ∧
      ((resolveMetrics margs).contains ("answer_relevancy") = true →
        slookup r.metrics ("answer_relevancy")
          = some (pyRound 4 (heuristicRelevancy (listSpansByTrace st traceId)))) := by
  have hany := getTrace_any st traceId tr htrace
  unfold runEvaluation
  simp only [htrace, saveEval, hany, if_true]
  refine ⟨_, _, rfl, rfl, ?_, ?_, ?_, ?_, ?_⟩
  · rw [slookup_update_stats _ _ _ (by decide)]
    exact evalBasic_eval_method _ _
  · intro h
    rw [slookup_update_stats _ _ _ (by decide)]
    exact evalBasic_harmfulness _ _ h
  · intro h
    rw [slookup_update_stats _ _ _ (by decide)]
    exact evalBasic_coherence _ _ h
  · intro h
    rw [slookup_update_stats _ _ _ (by decide)]
    exact evalBasic_completeness _ _ h
  · intro h
    rw [slookup_update_stats _ _ _ (by decide)]
    exact evalBasic_relevancy _ _ h

def c5CounterStore : Store :=
{ traces := [{ trace_id := "t1", start_time := 0 }],
  spans := [ { span_id := "o1", trace_id := "t1", name := "work", kind := .custom,
               start_time := 0,
               output_data := some [(("response"), JValue.str ("hello"))] },
             { span_id := "e1", trace_id := "t1", name := "broken", kind := .custom,
               start_time := 0, status := "error" } ] }

/-- C5 (counterexample to the claim as stated): a trace with one span carrying
non-empty `output_data` and one span with `status = "error"`, evaluated on
the heuristic path, scores `answer_relevancy = 0.5`, not the claimed 1.0 —
`_eval_basic` multiplies the base score by `max 0 (1 - 1/2)` because an error
span is present. -/
theorem c5_counterexample :
    (c5CounterStore.spans.any (fun s => odTruthy s.output_data)) = true ∧
    (match runEvaluation none ("e1") 0 c5CounterStore ("t1") none with
     | .ok pr => slookup pr.2.metrics ("answer_relevancy")
     | .error _ => none) = some (1 / 2) ∧ ((1 : ℚ) / 2) ≠ 1 := by
  refine ⟨by decide, ?_, by norm_num⟩
  simp +decide [runEvaluation, c5CounterStore, getTrace, saveEval, listSpansByTrace,
    resolveMetrics, extractQA, evalBasic, defaultMetrics, dinsert, slookup, odTruthy,
    pyRound, List.filter_cons, max_def, dictUpdate, computeStats, Except.map, List.find?]
  norm_num

def c5wStore : Store := { traces := [{ trace_id := "t1", start_time := 0 }] }

/-- Witness for C5 (amended) on a trace with no spans: the heuristic path
completes and scores 0.0 everywhere with `eval_method = 0.0`. -/
theorem c5_heuristic_scores_witness :
    ∃ st2 r, runEvaluation none ("e1") 4 c5wStore ("t1") none = .ok (st2, r) ∧
      r.status = EvalStatus.completed ∧
      slookup r.metrics ("eval_method") = some 0 ∧
      ((resolveMetrics none).contains ("harmfulness") = true →
        slookup r.metrics ("harmfulness") = some 0) ∧
      ((resolveMetrics none).contains ("coherence") = true →
        slookup r.metrics ("coherence")
          = some (if hasOutput (listSpansByTrace c5wStore ("t1")) then 1 else 0)) ∧
      ((resolveMetrics none).contains ("completeness") = true →
        slookup r.metrics ("completeness")
          = some (if hasOutput (listSpansByTrace c5wStore ("t1")) then 1 else 0)) ∧
      ((resolveMetrics none).contains ("answer_relevancy") = true →
        slookup r.metrics ("answer_relevancy")
          = some (pyRound 4 (heuristicRelevancy (listSpansByTrace c5wStore ("t1"))))) :=
  c5_heuristic_scores ("e1") 4 c5wStore ("t1") none
    { trace_id := "t1", start_time := 0 } rfl

theorem find_scoped_unique {α : Type} (keyA keyN : α → String) (l : List α)
    (aid nm : String) (x : α)
    (hnd : (l.map (fun y => (keyA y, keyN y))).Nodup)
    (hx : x ∈ l) (ha : keyA x = aid) (hn : keyN x = nm) :
    (l.filter (fun y => keyA y == aid)).find? (fun y => keyN y == nm) = some x := by
  induction l with
  | nil => simp at hx
  | cons y t ih =>
    simp only [List.map_cons, List.nodup_cons] at hnd
    obtain ⟨hy, hndt⟩ := hnd
    rcases List.mem_cons.mp hx with rfl | hxt
    · have hfa : (keyA x == aid) = true := by simp [ha]
      have hfn : (keyN x == nm) = true := by simp [hn]
      simp only [List.filter_cons, hfa, if_true, List.find?, hfn]
    · by_cases hya : keyA y = aid
      · have hfa : (keyA y == aid) = true := by simp [hya]
        by_cases hyn : keyN y = nm
        · exfalso
          apply hy
          have hmem : (keyA x, keyN x) ∈ t.map (fun z => (keyA z, keyN z)) :=
            List.mem_map_of_mem _ hxt
          rw [ha, hn] at hmem
          rw [hya, hyn]
          exact hmem
        · have hfn : (keyN y == nm) = false := by
            simp only [beq_eq_false_iff_ne, ne_eq]; exact hyn
          simp only [List.filter_cons, hfa, if_true, List.find?, hfn]
          exact ih hndt hxt
      · have hfa : (keyA y == aid) = false := by
          simp only [beq_eq_false_iff_ne, ne_eq]; exact hya
        simp only [List.filter_cons, hfa, Bool.false_eq_true, if_false]
        exact ih hndt hxt

theorem find_scoped_none {α : Type} (keyA keyN : α → String) (l : List α)
    (aid nm : String)
    (h : ∀ y ∈ l, ¬ (keyA y = aid ∧ keyN y = nm)) :
    (l.filter (fun y => keyA y == aid)).find? (fun y => keyN y == nm) = none := by
  rw [List.find?_eq_none]
  intro y hy hn
  have hyl : y ∈ l := (List.mem_filter.mp hy).1
  have hya := (List.mem_filter.mp hy).2
  exact h y hyl ⟨by simpa using hya, by simpa using hn⟩

/-- The UNIQUE `(agent_id, name)` constraint of the `parameters` table. -/
def ParamKeysNodup (st : Store) : Prop :=
(st.params.map (fun p => (p.agent_id, p.name))).Nodup

/-- The UNIQUE `(agent_id, name)` constraint of the `feature_flags` table. -/
def FlagKeysNodup (st : Store) : Prop :=
(st.flags.map (fun f => (f.agent_id, f.name))).Nodup

/-- C6: two-tier resolution for both parameters and feature flags — the
agent-scoped entry wins whenever one exists for `(agent_id, name)`; otherwise
the value of the `("_global", name)` entry is returned when it exists; otherwise
the supplied default.  Flags and parameters live in independent tables, so a
flag and a parameter sharing a name never collide: each resolver reads only
its own table. -/
theorem c6_resolution (st : Store) (aid nm : String) (dfltP : Option JValue)
    (dfltF : Bool) :
    (ParamKeysNodup st → ∀ p ∈ st.params, p.agent_id = aid → p.name = nm →
      getParamValue st aid nm dfltP = p.value) ∧
    (∀ g ∈ st.params, g.agent_id = ("_global") → g.name = nm →
      (∀ q ∈ st.params, ¬ (q.agent_id = aid ∧ q.name = nm)) → ParamKeysNodup st →
      getParamValue st aid nm dfltP = g.value) ∧
    ((∀ q ∈ st.params, ¬ (q.name = nm ∧ (q.agent_id = aid ∨ q.agent_id = ("_global")))) →
      getParamValue st aid nm dfltP = dfltP) ∧
    (FlagKeysNodup st → ∀ f ∈ st.flags, f.agent_id = aid → f.name = nm →
      isEnabled st aid nm dfltF = f.enabled) ∧
    (∀ g ∈ st.flags, g.agent_id = ("_global") → g.name = nm →
      (∀ q ∈ st.flags, ¬ (q.agent_id = aid ∧ q.name = nm)) → FlagKeysNodup st →
      isEnabled st aid nm dfltF = g.enabled) ∧
    ((∀ q ∈ st.flags, ¬ (q.name = nm ∧ (q.agent_id = aid ∨ q.agent_id = ("_global")))) →
      isEnabled st aid nm dfltF = dfltF) ∧
    (∀ fl : List FeatureFlag, getParamValue { st with flags := fl } aid nm dfltP
      = getParamValue st aid nm dfltP) ∧
    (∀ ps : List Parameter, isEnabled { st with params := ps } aid nm dfltF
      = isEnabled st aid nm dfltF) := by
  refine ⟨?_, ?_, ?_, ?_, ?_, ?_, fun _ => rfl, fun _ => rfl⟩
  · intro hnd p hp ha hn
    unfold getParamValue getParamsFor
    rw [find_scoped_unique _ _ _ _ _ p hnd hp ha hn]
  · intro g hg hga hgn hnone hnd
    unfold getParamValue getParamsFor
    rw [find_scoped_none _ _ _ _ _ (fun q hq hc => hnone q hq hc),
      find_scoped_unique _ _ _ _ _ g hnd hg hga hgn]
  · intro hnone
    unfold getParamValue getParamsFor
    rw [find_scoped_none _ _ _ _ _ (fun q hq hc => hnone q hq ⟨hc.2, Or.inl hc.1⟩),
      find_scoped_none _ _ _ _ _ (fun q hq hc => hnone q hq ⟨hc.2, Or.inr hc.1⟩)]
  · intro hnd f hf ha hn
    unfold isEnabled getFlagsFor
    rw [find_scoped_unique _ _ _ _ _ f hnd hf ha hn]
  · intro g hg hga hgn hnone hnd
    unfold isEnabled getFlagsFor
    rw [find_scoped_none _ _ _ _ _ (fun q hq hc => hnone q hq hc),
      find_scoped_unique _ _ _ _ _ g hnd hg hga hgn]
  · intro hnone
    unfold isEnabled getFlagsFor
    rw [find_scoped_none _ _ _ _ _ (fun q hq hc => hnone q hq ⟨hc.2, Or.inl hc.1⟩),
      find_scoped_none _ _ _ _ _ (fun q hq hc => hnone q hq ⟨hc.2, Or.inr hc.1⟩)]

def c6ParamAgent : Parameter :=
{ param_id := "p1", agent_id := "a1", name := "x", value := some (JValue.num 3),
  updated_at := 0 }

def c6ParamGlobal : Parameter :=
{ param_id := "p2", agent_id := "_global", name := "x", value := some (JValue.num 7),
  updated_at := 0 }

def c6FlagGlobal : FeatureFlag :=
{ flag_id := "f1", agent_id := "_global", name := "x", enabled := true, updated_at := 0 }

def c6Store : Store :=
{ params := [c6ParamAgent, c6ParamGlobal], flags := [c6FlagGlobal] }

/-- Witness for C6: with both an agent-scoped and a global parameter named
`x`, resolution for agent `a1` returns the agent-scoped value; the flag named
`x` exists only globally, so `is_enabled` falls back to the global flag; an
unknown name returns the default; and the parameter resolver ignores the
flags table entirely. -/
theorem c6_resolution_witness :
    getParamValue c6Store ("a1") ("x") none = some (JValue.num 3) ∧
    isEnabled c6Store ("a1") ("x") false = true ∧
    getParamValue c6Store ("a1") ("y") (some (JValue.str ("d")))
      = some (JValue.str ("d")) ∧
    getParamValue { c6Store with flags := [] } ("a1") ("x") none
      = getParamValue c6Store ("a1") ("x") none := by
  refine ⟨?_, ?_, ?_, ?_⟩
  · exact (c6_resolution c6Store ("a1") ("x") none false).1
      (by unfold ParamKeysNodup; decide)
      c6ParamAgent (List.mem_cons_self _ _) rfl rfl
  · exact ((c6_resolution c6Store ("a1") ("x") none false).2.2.2.2.1
      c6FlagGlobal (List.mem_cons_self _ _) rfl rfl
      (by intro q hq hc
          simp only [c6Store, List.mem_singleton] at hq
          rw [hq] at hc
          exact absurd hc.1 (by decide))
      (by unfold FlagKeysNodup; decide))
  · refine (c6_resolution c6Store ("a1") ("y") (some (JValue.str ("d"))) false).2.2.1 ?_
    intro q hq hc
    simp only [c6Store, List.mem_cons, List.not_mem_nil, or_false] at hq
    rcases hq with rfl | rfl
    · exact absurd hc.1 (by decide)
    · exact absurd hc.1 (by decide)
  · exact (c6_resolution c6Store ("a1") ("x") none false).2.2.2.2.2.2.1 []

def c7Run : Store × Bool :=
let pr := createPrompt ({} : Store) 0 ("p1") ("v1") ("myprompt")
activateVersion pr.1 1 ("p1") 1

/-- C7 (failing evaluation): create a prompt (which stores version 1 as
active) and then call `activate_version(p1, 1)`.  The call reports success
and stamps `active_version = 1` on the prompt row, but the trailing
`save_prompt` is an `INSERT OR REPLACE INTO prompts` whose REPLACE deletes
the old prompt row and thereby fires `ON DELETE CASCADE` on
`prompt_versions` (the connection runs `PRAGMA foreign_keys=ON`), wiping
every version row of the prompt — including the one just activated.  So
afterwards no version of the prompt is active or even stored, contradicting
the claim that version `v` is set active and its siblings deactivated. -/
theorem c7_failing_eval :
    c7Run.2 = true ∧
    (listPromptVersions c7Run.1 ("p1")).length = 0 ∧
    ((getPrompt c7Run.1 ("p1")).map (fun p => p.active_version)) = some (some 1) := by
  refine ⟨by decide, by decide, by decide⟩

/-- C8 (failing evaluation): `run_evaluation` on a `trace_id` with no
persisted trace builds the failed EvalResult but then calls `save_eval`,
whose `INSERT INTO evaluations` row references the nonexistent trace; with
`PRAGMA foreign_keys=ON` SQLite raises `IntegrityError: FOREIGN KEY
constraint failed`, which propagates to the caller instead of the claimed
failed-result return. -/
theorem c8_failing_eval :
    (match runEvaluation none ("e1") 0 ({} : Store) ("missing") none with
     | .error e => e == ("FOREIGN KEY constraint failed")
     | .ok _ => false) = true := by decide

/-- C10: updating an existing flag or parameter with an empty description
string rewrites `enabled`/`value` and `updated_at` (and persists exactly that
row) while keeping the previously stored description; a non-empty
description does overwrite it.  Python treats the empty string as falsy in
`if description:`, so only non-empty descriptions are applied. -/
theorem c10_description_preserved (st : Store) (now : Time) (idF idP aid nm : String)
    (e : Bool) (v : Option JValue) :
    (∀ ex, findFlag st aid nm = some ex →
      setFlag st now idF aid nm e v ("") =
        (saveFlag st { ex with enabled := e, value := v, updated_at := now },
         { ex with enabled := e, value := v, updated_at := now }) ∧
      (setFlag st now idF aid nm e v ("")).2.description = ex.description ∧
      ∀ d : String, ¬ d = ("") →
        (setFlag st now idF aid nm e v d).2.description = d ∧
        (setFlag st now idF aid nm e v d).2.enabled = e ∧
        (setFlag st now idF aid nm e v d).2.value = v ∧
        (setFlag st now idF aid nm e v d).2.updated_at = now) ∧
    (∀ ex, findParam st aid nm = some ex →
      setParam st now idP aid nm v ("") =
        (saveParam st { ex with value := v, updated_at := now },
         { ex with value := v, updated_at := now }) ∧
      (setParam st now idP aid nm v ("")).2.description = ex.description ∧
      ∀ d : String, ¬ d = ("") →
        (setParam st now idP aid nm v d).2.description = d ∧
        (setParam st now idP aid nm v d).2.value = v ∧
        (setParam st now idP aid nm v d).2.updated_at = now) := by
  constructor
  · intro ex hex
    unfold setFlag
    simp only [hex]
    refine ⟨by simp, by simp, ?_⟩
    intro d hd
    simp [hd]
  · intro ex hex
    unfold setParam
    simp only [hex]
    refine ⟨by simp, by simp, ?_⟩
    intro d hd
    simp [hd]

def c10Flag : FeatureFlag :=
{ flag_id := "f1", agent_id := "a1", name := "x", enabled := false,
  description := "keep me", updated_at := 0 }

def c10Param : Parameter :=
{ param_id := "p1", agent_id := "a1", name := "x", value := some (JValue.num 1),
  description := "keep me too", updated_at := 0 }

def c10Store : Store := { flags := [c10Flag], params := [c10Param] }

/-- Witness for C10: re-setting the stored flag and parameter with an empty
description leaves their descriptions intact while the other fields change. -/
theorem c10_description_preserved_witness :
    (setFlag c10Store 9 ("nf") ("a1") ("x") true none ("")).2.description
      = ("keep me") ∧
    (setParam c10Store 9 ("np") ("a1") ("x") (some (JValue.num 2)) ("")).2.description
      = ("keep me too") ∧
    (setFlag c10Store 9 ("nf") ("a1") ("x") true none ("new")).2.description = ("new") := by
  have h := c10_description_preserved c10Store 9 ("nf") ("np") ("a1") ("x") true none
  have hf := h.1 c10Flag rfl
  have hp := h.2 c10Param rfl
  have hd := (hf.2.2 ("new") (by decide)).1
  exact ⟨hf.2.1, hp.2.1, hd⟩
